import Mathlib

/-!
Verification of the `@tsonic/js-globals` package: a shallow embedding of the
shipped global type declaration surface (`src/index.d.ts`) together with the
mode-merge contract operations described by the package's design documents.
-/

set_option maxRecDepth 8000

/-- The type expression grammar of the shipped declaration file.
`param` nodes appear only inside parameter lists of `fn`, methods, call
signatures and constructor signatures, recording the parameter name, its
optionality (`?`) and whether it is a rest (`...`) parameter. -/
inductive Ty where
  | number
  | string
  | boolean
  | symbol
  | bigint
  | undefinedT
  | voidT
  | anyT
  | unknownT
  | neverT
  | nullT
  | objectT
  | thisTy
  | intrinsicT
  | numLit (n : Int)
  | tvar (n : String)
  | ref (n : String) (args : List Ty)
  | arr (t : Ty)
  | roArr (t : Ty)
  | union (a b : Ty)
  | inter (a b : Ty)
  | tuple (ts : List Ty)
  | fn (params : List Ty) (ret : Ty)
  | pred (argName : String) (t : Ty)
  | objIndex (keyTy valTy : Ty)
  | param (name : String) (optional rest : Bool) (t : Ty)

/-- A type parameter of a generic interface or method, with its optional
`extends` constraint and optional default. -/
structure TypeParam where
  name : String
  constraint : Option Ty
  dflt : Option Ty

/-- A member of an interface: a property, a method (possibly overloaded or
optional), an index signature, a call signature, a constructor signature, or a
computed-name method such as `[Symbol.iterator]()`. -/
inductive Member where
  | prop (name : String) (ty : Ty) (readonly optional : Bool)
  | method (name : String) (typeParams : List TypeParam) (params : List Ty) (ret : Ty) (optional : Bool)
  | indexSig (keyName : String) (keyTy valTy : Ty) (readonly : Bool)
  | callSig (typeParams : List TypeParam) (params : List Ty) (ret : Ty)
  | ctorSig (typeParams : List TypeParam) (params : List Ty) (ret : Ty)
  | computedMethod (symbolKey : String) (params : List Ty) (ret : Ty)

/-- A global declaration of the shipped surface: an interface, a type alias
(alias right-hand sides, which no operation inspects, are kept as their source
text), or a global `const`. -/
inductive GlobalDecl where
  | interfaceDecl (name : String) (typeParams : List TypeParam) (extendsList : List Ty) (members : List Member)
  | typeAlias (name : String) (rhs : String)
  | constDecl (name : String) (ty : Ty)

def num : Ty := Ty.number
def str : Ty := Ty.string
def boolT : Ty := Ty.boolean
def tv (s : String) : Ty := Ty.tvar s

/-- Required parameter. -/
def pp (n : String) (t : Ty) : Ty := Ty.param n false false t
/-- Optional parameter (`name?: T`). -/
def popt (n : String) (t : Ty) : Ty := Ty.param n true false t
/-- Rest parameter (`...name: T`). -/
def prest (n : String) (t : Ty) : Ty := Ty.param n false true t

def meth (n : String) (ps : List Ty) (r : Ty) : Member := Member.method n [] ps r false
def methT (n : String) (tps : List TypeParam) (ps : List Ty) (r : Ty) : Member :=
  Member.method n tps ps r false
def tp (n : String) : TypeParam := TypeParam.mk n none none

/-! ## The shipped declaration surface, transcribed from `src/index.d.ts` -/

/-- Members of `interface Array<T>` (src/index.d.ts lines 32-162). -/
def arrayMembers : List Member := [
  Member.prop "length" num false false,
  Member.indexSig "n" num (tv "T") false,
  meth "push" [prest "items" (Ty.arr (tv "T"))] num,
  meth "pop" [] (Ty.union (tv "T") Ty.undefinedT),
  meth "shift" [] (Ty.union (tv "T") Ty.undefinedT),
  meth "unshift" [prest "items" (Ty.arr (tv "T"))] num,
  meth "slice" [popt "start" num, popt "end" num] (Ty.arr (tv "T")),
  meth "splice" [pp "start" num, popt "deleteCount" num, prest "items" (Ty.arr (tv "T"))]
    (Ty.arr (tv "T")),
  meth "indexOf" [pp "searchElement" (tv "T"), popt "fromIndex" num] num,
  meth "lastIndexOf" [pp "searchElement" (tv "T"), popt "fromIndex" num] num,
  meth "every"
    [pp "predicate"
      (Ty.fn [pp "value" (tv "T"), pp "index" num, pp "array" (Ty.arr (tv "T"))] Ty.unknownT)]
    boolT,
  meth "some"
    [pp "predicate"
      (Ty.fn [pp "value" (tv "T"), pp "index" num, pp "array" (Ty.arr (tv "T"))] Ty.unknownT)]
    boolT,
  meth "forEach"
    [pp "callbackfn"
      (Ty.fn [pp "value" (tv "T"), pp "index" num, pp "array" (Ty.arr (tv "T"))] Ty.voidT)]
    Ty.voidT,
  methT "map" [tp "U"]
    [pp "callbackfn"
      (Ty.fn [pp "value" (tv "T"), pp "index" num, pp "array" (Ty.arr (tv "T"))] (tv "U"))]
    (Ty.arr (tv "U")),
  meth "filter"
    [pp "predicate"
      (Ty.fn [pp "value" (tv "T"), pp "index" num, pp "array" (Ty.arr (tv "T"))] Ty.unknownT)]
    (Ty.arr (tv "T")),
  methT "reduce" [tp "U"]
    [pp "callbackfn"
      (Ty.fn [pp "previousValue" (tv "U"), pp "currentValue" (tv "T"), pp "currentIndex" num,
              pp "array" (Ty.arr (tv "T"))] (tv "U")),
     pp "initialValue" (tv "U")]
    (tv "U"),
  meth "find"
    [pp "predicate"
      (Ty.fn [pp "value" (tv "T"), pp "index" num, pp "array" (Ty.arr (tv "T"))] Ty.unknownT)]
    (Ty.union (tv "T") Ty.undefinedT),
  meth "findIndex"
    [pp "predicate"
      (Ty.fn [pp "value" (tv "T"), pp "index" num, pp "array" (Ty.arr (tv "T"))] Ty.unknownT)]
    num,
  meth "includes" [pp "searchElement" (tv "T"), popt "fromIndex" num] boolT,
  meth "sort" [popt "compareFn" (Ty.fn [pp "a" (tv "T"), pp "b" (tv "T")] num)] Ty.thisTy,
  meth "reverse" [] (Ty.arr (tv "T")),
  meth "concat" [prest "items" (Ty.arr (Ty.union (tv "T") (Ty.arr (tv "T"))))] (Ty.arr (tv "T")),
  meth "join" [popt "separator" str] str,
  meth "at" [pp "index" num] (Ty.union (tv "T") Ty.undefinedT),
  methT "flat" [TypeParam.mk "D" (some num) (some (Ty.numLit 1))]
    [popt "depth" (tv "D")] (Ty.arr Ty.anyT),
  methT "flatMap" [tp "U"]
    [pp "callback"
      (Ty.fn [pp "value" (tv "T"), pp "index" num, pp "array" (Ty.arr (tv "T"))]
        (Ty.union (tv "U") (Ty.arr (tv "U"))))]
    (Ty.arr (tv "U"))]

/-- Members of `interface ReadonlyArray<T>` (src/index.d.ts lines 164-182). -/
def readonlyArrayMembers : List Member := [
  Member.prop "length" num true false,
  Member.indexSig "n" num (tv "T") true,
  meth "slice" [popt "start" num, popt "end" num] (Ty.arr (tv "T")),
  meth "indexOf" [pp "searchElement" (tv "T"), popt "fromIndex" num] num,
  meth "lastIndexOf" [pp "searchElement" (tv "T"), popt "fromIndex" num] num,
  meth "every"
    [pp "predicate"
      (Ty.fn [pp "value" (tv "T"), pp "index" num, pp "array" (Ty.roArr (tv "T"))] Ty.unknownT)]
    boolT,
  meth "some"
    [pp "predicate"
      (Ty.fn [pp "value" (tv "T"), pp "index" num, pp "array" (Ty.roArr (tv "T"))] Ty.unknownT)]
    boolT,
  meth "forEach"
    [pp "callbackfn"
      (Ty.fn [pp "value" (tv "T"), pp "index" num, pp "array" (Ty.roArr (tv "T"))] Ty.voidT)]
    Ty.voidT,
  methT "map" [tp "U"]
    [pp "callbackfn"
      (Ty.fn [pp "value" (tv "T"), pp "index" num, pp "array" (Ty.roArr (tv "T"))] (tv "U"))]
    (Ty.arr (tv "U")),
  meth "filter"
    [pp "predicate"
      (Ty.fn [pp "value" (tv "T"), pp "index" num, pp "array" (Ty.roArr (tv "T"))] Ty.unknownT)]
    (Ty.arr (tv "T")),
  methT "reduce" [tp "U"]
    [pp "callbackfn"
      (Ty.fn [pp "previousValue" (tv "U"), pp "currentValue" (tv "T"), pp "currentIndex" num,
              pp "array" (Ty.roArr (tv "T"))] (tv "U")),
     pp "initialValue" (tv "U")]
    (tv "U"),
  meth "find"
    [pp "predicate"
      (Ty.fn [pp "value" (tv "T"), pp "index" num, pp "array" (Ty.roArr (tv "T"))] Ty.unknownT)]
    (Ty.union (tv "T") Ty.undefinedT),
  meth "findIndex"
    [pp "predicate"
      (Ty.fn [pp "value" (tv "T"), pp "index" num, pp "array" (Ty.roArr (tv "T"))] Ty.unknownT)]
    num,
  meth "includes" [pp "searchElement" (tv "T"), popt "fromIndex" num] boolT,
  meth "concat" [prest "items" (Ty.arr (Ty.union (tv "T") (Ty.roArr (tv "T"))))] (Ty.arr (tv "T")),
  meth "join" [popt "separator" str] str,
  meth "at" [pp "index" num] (Ty.union (tv "T") Ty.undefinedT)]

/-- Members of `interface ArrayConstructor` (src/index.d.ts lines 184-190). -/
def arrayConstructorMembers : List Member := [
  Member.ctorSig [tp "T"] [prest "items" (Ty.arr (tv "T"))] (Ty.arr (tv "T")),
  meth "isArray" [pp "arg" Ty.anyT] (Ty.pred "arg" (Ty.arr Ty.anyT)),
  methT "from" [tp "T"] [pp "arrayLike" (Ty.ref "ArrayLike" [tv "T"])] (Ty.arr (tv "T")),
  methT "from" [tp "T", tp "U"]
    [pp "arrayLike" (Ty.ref "ArrayLike" [tv "T"]),
     pp "mapfn" (Ty.fn [pp "v" (tv "T"), pp "k" num] (tv "U"))]
    (Ty.arr (tv "U")),
  methT "of" [tp "T"] [prest "items" (Ty.arr (tv "T"))] (Ty.arr (tv "T"))]

/-- Members of `interface String` (src/index.d.ts lines 197-317). -/
def stringMembers : List Member := [
  Member.prop "length" num true false,
  meth "charAt" [pp "pos" num] str,
  meth "charCodeAt" [pp "index" num] num,
  meth "concat" [prest "strings" (Ty.arr str)] str,
  meth "indexOf" [pp "searchString" str, popt "position" num] num,
  meth "lastIndexOf" [pp "searchString" str, popt "position" num] num,
  meth "includes" [pp "searchString" str, popt "position" num] boolT,
  meth "startsWith" [pp "searchString" str, popt "position" num] boolT,
  meth "endsWith" [pp "searchString" str, popt "endPosition" num] boolT,
  meth "slice" [popt "start" num, popt "end" num] str,
  meth "substring" [pp "start" num, popt "end" num] str,
  meth "substr" [pp "from" num, popt "length" num] str,
  meth "toLowerCase" [] str,
  meth "toUpperCase" [] str,
  meth "trim" [] str,
  meth "trimEnd" [] str,
  meth "trimStart" [] str,
  meth "padStart" [pp "targetLength" num, popt "padString" str] str,
  meth "padEnd" [pp "targetLength" num, popt "padString" str] str,
  meth "repeat" [pp "count" num] str,
  meth "replace" [pp "searchValue" (Ty.union str (Ty.ref "RegExp" [])), pp "replaceValue" str] str,
  meth "split" [pp "separator" (Ty.union str (Ty.ref "RegExp" [])), popt "limit" num] (Ty.arr str),
  meth "match" [pp "regexp" (Ty.ref "RegExp" [])]
    (Ty.union (Ty.ref "RegExpMatchArray" []) Ty.nullT),
  meth "search" [pp "regexp" (Ty.ref "RegExp" [])] num]

/-- Members of `interface StringConstructor` (src/index.d.ts lines 319-323). -/
def stringConstructorMembers : List Member := [
  Member.ctorSig [] [popt "value" Ty.anyT] (Ty.ref "String" []),
  Member.callSig [] [popt "value" Ty.anyT] str,
  meth "fromCharCode" [prest "codes" (Ty.arr num)] str]

/-- Members of `interface Number` (src/index.d.ts lines 330-335). -/
def numberMembers : List Member := [
  meth "toString" [popt "radix" num] str,
  meth "toFixed" [popt "fractionDigits" num] str,
  meth "toExponential" [popt "fractionDigits" num] str,
  meth "toPrecision" [popt "precision" num] str]

/-- Members of `interface NumberConstructor` (src/index.d.ts lines 337-351). -/
def numberConstructorMembers : List Member := [
  Member.ctorSig [] [popt "value" Ty.anyT] (Ty.ref "Number" []),
  Member.callSig [] [popt "value" Ty.anyT] num,
  Member.prop "MAX_VALUE" num true false,
  Member.prop "MIN_VALUE" num true false,
  Member.prop "NaN" num true false,
  Member.prop "NEGATIVE_INFINITY" num true false,
  Member.prop "POSITIVE_INFINITY" num true false,
  meth "isFinite" [pp "value" Ty.unknownT] (Ty.pred "value" num),
  meth "isInteger" [pp "value" Ty.unknownT] (Ty.pred "value" num),
  meth "isNaN" [pp "value" Ty.unknownT] (Ty.pred "value" num),
  meth "isSafeInteger" [pp "value" Ty.unknownT] (Ty.pred "value" num),
  meth "parseFloat" [pp "string" str] num,
  meth "parseInt" [pp "string" str, popt "radix" num] num]

/-- Members of `interface BooleanConstructor` (src/index.d.ts lines 360-363). -/
def booleanConstructorMembers : List Member := [
  Member.ctorSig [] [popt "value" Ty.anyT] (Ty.ref "Boolean" []),
  Member.callSig [] [popt "value" Ty.anyT] boolT]

/-- Members of `interface Object` (src/index.d.ts lines 370-374). -/
def objectMembers : List Member := [
  Member.prop "constructor" (Ty.ref "Function" []) false false,
  meth "toString" [] str,
  meth "hasOwnProperty" [pp "v" (Ty.ref "PropertyKey" [])] boolT]

/-- Members of `interface ObjectConstructor` (src/index.d.ts lines 376-384). -/
def objectConstructorMembers : List Member := [
  Member.ctorSig [] [popt "value" Ty.anyT] (Ty.ref "Object" []),
  Member.callSig [] [] Ty.anyT,
  Member.callSig [] [pp "value" Ty.anyT] Ty.anyT,
  meth "keys" [pp "o" Ty.objectT] (Ty.arr str),
  methT "values" [tp "T"] [pp "o" (Ty.objIndex str (tv "T"))] (Ty.arr (tv "T")),
  methT "entries" [tp "T"] [pp "o" (Ty.objIndex str (tv "T"))]
    (Ty.arr (Ty.tuple [str, tv "T"])),
  methT "assign" [tp "T", tp "U"] [pp "target" (tv "T"), pp "source" (tv "U")]
    (Ty.inter (tv "T") (tv "U"))]

/-- Members of `interface Function` (src/index.d.ts lines 391-397). -/
def functionMembers : List Member := [
  Member.prop "prototype" Ty.anyT false false,
  Member.prop "length" num true false,
  meth "call" [pp "thisArg" Ty.anyT, prest "argArray" (Ty.arr Ty.anyT)] Ty.anyT,
  meth "apply" [pp "thisArg" Ty.anyT, popt "argArray" Ty.anyT] Ty.anyT,
  meth "bind" [pp "thisArg" Ty.anyT, prest "argArray" (Ty.arr Ty.anyT)] Ty.anyT]

/-- Members of `interface FunctionConstructor` (src/index.d.ts lines 402-405). -/
def functionConstructorMembers : List Member := [
  Member.ctorSig [] [prest "args" (Ty.arr str)] (Ty.ref "Function" []),
  Member.callSig [] [prest "args" (Ty.arr str)] (Ty.ref "Function" [])]

/-- Members of `interface RegExp` (src/index.d.ts lines 412-420). -/
def regExpMembers : List Member := [
  meth "exec" [pp "string" str] (Ty.union (Ty.ref "RegExpExecArray" []) Ty.nullT),
  meth "test" [pp "string" str] boolT,
  Member.prop "source" str true false,
  Member.prop "global" boolT true false,
  Member.prop "ignoreCase" boolT true false,
  Member.prop "multiline" boolT true false,
  Member.prop "lastIndex" num false false]

/-- Members of `interface RegExpConstructor` (src/index.d.ts lines 422-425). -/
def regExpConstructorMembers : List Member := [
  Member.ctorSig [] [pp "pattern" (Ty.union str (Ty.ref "RegExp" [])), popt "flags" str]
    (Ty.ref "RegExp" []),
  Member.callSig [] [pp "pattern" (Ty.union str (Ty.ref "RegExp" [])), popt "flags" str]
    (Ty.ref "RegExp" [])]

/-- Members of `interface RegExpExecArray` (src/index.d.ts lines 429-432). -/
def regExpExecArrayMembers : List Member := [
  Member.prop "index" num false false,
  Member.prop "input" str false false]

/-- Members of `interface RegExpMatchArray` (src/index.d.ts lines 434-437). -/
def regExpMatchArrayMembers : List Member := [
  Member.prop "index" num false true,
  Member.prop "input" str false true]

/-- Members of `interface SymbolConstructor` (src/index.d.ts lines 442-450). -/
def symbolConstructorMembers : List Member := [
  Member.prop "iterator" Ty.symbol true false,
  Member.prop "asyncIterator" Ty.symbol true false,
  Member.prop "hasInstance" Ty.symbol true false,
  Member.prop "isConcatSpreadable" Ty.symbol true false,
  Member.prop "species" Ty.symbol true false,
  Member.prop "toPrimitive" Ty.symbol true false,
  Member.prop "toStringTag" Ty.symbol true false]

/-- Members of `interface Math` (src/index.d.ts lines 459-486). -/
def mathMembers : List Member := [
  Member.prop "E" num true false,
  Member.prop "LN10" num true false,
  Member.prop "LN2" num true false,
  Member.prop "LOG2E" num true false,
  Member.prop "LOG10E" num true false,
  Member.prop "PI" num true false,
  Member.prop "SQRT1_2" num true false,
  Member.prop "SQRT2" num true false,
  meth "abs" [pp "x" num] num,
  meth "acos" [pp "x" num] num,
  meth "asin" [pp "x" num] num,
  meth "atan" [pp "x" num] num,
  meth "atan2" [pp "y" num, pp "x" num] num,
  meth "ceil" [pp "x" num] num,
  meth "cos" [pp "x" num] num,
  meth "exp" [pp "x" num] num,
  meth "floor" [pp "x" num] num,
  meth "log" [pp "x" num] num,
  meth "max" [prest "values" (Ty.arr num)] num,
  meth "min" [prest "values" (Ty.arr num)] num,
  meth "pow" [pp "x" num, pp "y" num] num,
  meth "random" [] num,
  meth "round" [pp "x" num] num,
  meth "sin" [pp "x" num] num,
  meth "sqrt" [pp "x" num] num,
  meth "tan" [pp "x" num] num]

/-- Members of `interface JSON` (src/index.d.ts lines 493-497). -/
def jsonMembers : List Member := [
  meth "parse"
    [pp "text" str,
     popt "reviver" (Ty.fn [pp "this" Ty.anyT, pp "key" str, pp "value" Ty.anyT] Ty.anyT)]
    Ty.anyT,
  meth "stringify"
    [pp "value" Ty.anyT,
     popt "replacer" (Ty.fn [pp "this" Ty.anyT, pp "key" str, pp "value" Ty.anyT] Ty.anyT),
     popt "space" (Ty.union str num)]
    str,
  meth "stringify"
    [pp "value" Ty.anyT,
     popt "replacer" (Ty.union (Ty.arr (Ty.union num str)) Ty.nullT),
     popt "space" (Ty.union str num)]
    str]

/-- Members of `interface Console` (src/index.d.ts lines 504-510). -/
def consoleMembers : List Member := [
  meth "log" [prest "data" (Ty.arr Ty.anyT)] Ty.voidT,
  meth "error" [prest "data" (Ty.arr Ty.anyT)] Ty.voidT,
  meth "warn" [prest "data" (Ty.arr Ty.anyT)] Ty.voidT,
  meth "info" [prest "data" (Ty.arr Ty.anyT)] Ty.voidT,
  meth "debug" [prest "data" (Ty.arr Ty.anyT)] Ty.voidT]

/-- Members of `interface Error` (src/index.d.ts lines 517-521). -/
def errorMembers : List Member := [
  Member.prop "name" str false false,
  Member.prop "message" str false false,
  Member.prop "stack" str false true]

/-- Members of `interface ErrorConstructor` (src/index.d.ts lines 523-526). -/
def errorConstructorMembers : List Member := [
  Member.ctorSig [] [popt "message" str] (Ty.ref "Error" []),
  Member.callSig [] [popt "message" str] (Ty.ref "Error" [])]

/-- Members of `interface Promise<T>` (src/index.d.ts lines 550-559). -/
def promiseMembers : List Member := [
  Member.method "then"
    [TypeParam.mk "TResult1" none (some (tv "T")), TypeParam.mk "TResult2" none (some Ty.neverT)]
    [popt "onfulfilled"
      (Ty.union
        (Ty.union
          (Ty.fn [pp "value" (tv "T")]
            (Ty.union (tv "TResult1") (Ty.ref "PromiseLike" [tv "TResult1"])))
          Ty.undefinedT)
        Ty.nullT),
     popt "onrejected"
      (Ty.union
        (Ty.union
          (Ty.fn [pp "reason" Ty.anyT]
            (Ty.union (tv "TResult2") (Ty.ref "PromiseLike" [tv "TResult2"])))
          Ty.undefinedT)
        Ty.nullT)]
    (Ty.ref "Promise" [Ty.union (tv "TResult1") (tv "TResult2")]) false,
  Member.method "catch" [TypeParam.mk "TResult" none (some Ty.neverT)]
    [popt "onrejected"
      (Ty.union
        (Ty.union
          (Ty.fn [pp "reason" Ty.anyT]
            (Ty.union (tv "TResult") (Ty.ref "PromiseLike" [tv "TResult"])))
          Ty.undefinedT)
        Ty.nullT)]
    (Ty.ref "Promise" [Ty.union (tv "T") (tv "TResult")]) false,
  meth "finally"
    [popt "onfinally" (Ty.union (Ty.union (Ty.fn [] Ty.voidT) Ty.undefinedT) Ty.nullT)]
    (Ty.ref "Promise" [tv "T"])]

/-- Members of `interface PromiseLike<T>` (src/index.d.ts lines 561-566). -/
def promiseLikeMembers : List Member := [
  Member.method "then"
    [TypeParam.mk "TResult1" none (some (tv "T")), TypeParam.mk "TResult2" none (some Ty.neverT)]
    [popt "onfulfilled"
      (Ty.union
        (Ty.union
          (Ty.fn [pp "value" (tv "T")]
            (Ty.union (tv "TResult1") (Ty.ref "PromiseLike" [tv "TResult1"])))
          Ty.undefinedT)
        Ty.nullT),
     popt "onrejected"
      (Ty.union
        (Ty.union
          (Ty.fn [pp "reason" Ty.anyT]
            (Ty.union (tv "TResult2") (Ty.ref "PromiseLike" [tv "TResult2"])))
          Ty.undefinedT)
        Ty.nullT)]
    (Ty.ref "PromiseLike" [Ty.union (tv "TResult1") (tv "TResult2")]) false]

/-- Members of `interface PromiseConstructor` (src/index.d.ts lines 568-575). -/
def promiseConstructorMembers : List Member := [
  Member.ctorSig [tp "T"]
    [pp "executor"
      (Ty.fn
        [pp "resolve"
          (Ty.fn [pp "value" (Ty.union (tv "T") (Ty.ref "PromiseLike" [tv "T"]))] Ty.voidT),
         pp "reject" (Ty.fn [popt "reason" Ty.anyT] Ty.voidT)]
        Ty.voidT)]
    (Ty.ref "Promise" [tv "T"]),
  meth "resolve" [] (Ty.ref "Promise" [Ty.voidT]),
  methT "resolve" [tp "T"] [pp "value" (Ty.union (tv "T") (Ty.ref "PromiseLike" [tv "T"]))]
    (Ty.ref "Promise" [tv "T"]),
  Member.method "reject" [TypeParam.mk "T" none (some Ty.neverT)] [popt "reason" Ty.anyT]
    (Ty.ref "Promise" [tv "T"]) false,
  methT "all" [tp "T"]
    [pp "values" (Ty.roArr (Ty.union (tv "T") (Ty.ref "PromiseLike" [tv "T"])))]
    (Ty.ref "Promise" [Ty.arr (tv "T")]),
  methT "race" [tp "T"]
    [pp "values" (Ty.roArr (Ty.union (tv "T") (Ty.ref "PromiseLike" [tv "T"])))]
    (Ty.ref "Promise" [tv "T"])]

/-- Members of `interface Iterator<T>` (src/index.d.ts lines 582-586).
`return` and `throw` are optional methods. -/
def iteratorMembers : List Member := [
  meth "next" [] (Ty.ref "IteratorResult" [tv "T"]),
  Member.method "return" [] [popt "value" Ty.anyT] (Ty.ref "IteratorResult" [tv "T"]) true,
  Member.method "throw" [] [popt "e" Ty.anyT] (Ty.ref "IteratorResult" [tv "T"]) true]

/-- Members of `interface IteratorResult<T>` (src/index.d.ts lines 588-591). -/
def iteratorResultMembers : List Member := [
  Member.prop "done" boolT false false,
  Member.prop "value" (tv "T") false false]

/-- Members of `interface Iterable<T>` (src/index.d.ts lines 593-595). -/
def iterableMembers : List Member := [
  Member.computedMethod "Symbol.iterator" [] (Ty.ref "Iterator" [tv "T"])]

/-- Members of `interface IterableIterator<T>` (src/index.d.ts lines 597-599). -/
def iterableIteratorMembers : List Member := [
  Member.computedMethod "Symbol.iterator" [] (Ty.ref "IterableIterator" [tv "T"])]

/-- Members of `interface IArguments` (src/index.d.ts lines 612-616). -/
def iArgumentsMembers : List Member := [
  Member.indexSig "index" num Ty.anyT false,
  Member.prop "length" num false false,
  Member.prop "callee" (Ty.ref "Function" []) false false]

/-- Members of `interface ArrayLike<T>` (src/index.d.ts lines 618-621). -/
def arrayLikeMembers : List Member := [
  Member.prop "length" num true false,
  Member.indexSig "n" num (tv "T") true]

def iface (n : String) (ms : List Member) : GlobalDecl :=
  GlobalDecl.interfaceDecl n [] [] ms
def ifaceT (n : String) (tps : List TypeParam) (ms : List Member) : GlobalDecl :=
  GlobalDecl.interfaceDecl n tps [] ms

/-- The complete shipped global declaration set of `src/index.d.ts`
(the body of its `declare global` block, lines 13-622), in source order. -/
def shippedSurface : List GlobalDecl := [
  GlobalDecl.typeAlias "string" "= string",
  GlobalDecl.typeAlias "number" "= number",
  GlobalDecl.typeAlias "boolean" "= boolean",
  GlobalDecl.typeAlias "symbol" "= symbol",
  GlobalDecl.typeAlias "bigint" "= bigint",
  GlobalDecl.typeAlias "undefined" "= undefined",
  GlobalDecl.typeAlias "any" "= any",
  GlobalDecl.typeAlias "unknown" "= unknown",
  GlobalDecl.typeAlias "never" "= never",
  ifaceT "Array" [tp "T"] arrayMembers,
  ifaceT "ReadonlyArray" [tp "T"] readonlyArrayMembers,
  iface "ArrayConstructor" arrayConstructorMembers,
  GlobalDecl.constDecl "Array" (Ty.ref "ArrayConstructor" []),
  iface "String" stringMembers,
  iface "StringConstructor" stringConstructorMembers,
  GlobalDecl.constDecl "String" (Ty.ref "StringConstructor" []),
  iface "Number" numberMembers,
  iface "NumberConstructor" numberConstructorMembers,
  GlobalDecl.constDecl "Number" (Ty.ref "NumberConstructor" []),
  iface "Boolean" [],
  iface "BooleanConstructor" booleanConstructorMembers,
  GlobalDecl.constDecl "Boolean" (Ty.ref "BooleanConstructor" []),
  iface "Object" objectMembers,
  iface "ObjectConstructor" objectConstructorMembers,
  GlobalDecl.constDecl "Object" (Ty.ref "ObjectConstructor" []),
  iface "Function" functionMembers,
  GlobalDecl.interfaceDecl "CallableFunction" [] [Ty.ref "Function" []] [],
  GlobalDecl.interfaceDecl "NewableFunction" [] [Ty.ref "Function" []] [],
  iface "FunctionConstructor" functionConstructorMembers,
  GlobalDecl.constDecl "Function" (Ty.ref "FunctionConstructor" []),
  iface "RegExp" regExpMembers,
  iface "RegExpConstructor" regExpConstructorMembers,
  GlobalDecl.constDecl "RegExp" (Ty.ref "RegExpConstructor" []),
  GlobalDecl.interfaceDecl "RegExpExecArray" [] [Ty.ref "Array" [str]] regExpExecArrayMembers,
  GlobalDecl.interfaceDecl "RegExpMatchArray" [] [Ty.ref "Array" [str]] regExpMatchArrayMembers,
  iface "SymbolConstructor" symbolConstructorMembers,
  GlobalDecl.constDecl "Symbol" (Ty.ref "SymbolConstructor" []),
  GlobalDecl.typeAlias "PropertyKey" "= string | number | symbol",
  iface "Math" mathMembers,
  GlobalDecl.constDecl "Math" (Ty.ref "Math" []),
  iface "JSON" jsonMembers,
  GlobalDecl.constDecl "JSON" (Ty.ref "JSON" []),
  iface "Console" consoleMembers,
  GlobalDecl.constDecl "console" (Ty.ref "Console" []),
  iface "Error" errorMembers,
  iface "ErrorConstructor" errorConstructorMembers,
  GlobalDecl.constDecl "Error" (Ty.ref "ErrorConstructor" []),
  GlobalDecl.typeAlias "Partial" "<T> = \x7b [P in keyof T]?: T[P] \x7d",
  GlobalDecl.typeAlias "Required" "<T> = \x7b [P in keyof T]-?: T[P] \x7d",
  GlobalDecl.typeAlias "Readonly" "<T> = \x7b readonly [P in keyof T]: T[P] \x7d",
  GlobalDecl.typeAlias "Pick" "<T, K extends keyof T> = \x7b [P in K]: T[P] \x7d",
  GlobalDecl.typeAlias "Record" "<K extends keyof any, T> = \x7b [P in K]: T \x7d",
  GlobalDecl.typeAlias "Exclude" "<T, U> = T extends U ? never : T",
  GlobalDecl.typeAlias "Extract" "<T, U> = T extends U ? T : never",
  GlobalDecl.typeAlias "Omit" "<T, K extends keyof any> = Pick<T, Exclude<keyof T, K>>",
  GlobalDecl.typeAlias "NonNullable" "<T> = T extends null | undefined ? never : T",
  GlobalDecl.typeAlias "Parameters"
    "<T extends (...args: any) => any> = T extends (...args: infer P) => any ? P : never",
  GlobalDecl.typeAlias "ConstructorParameters"
    "<T extends new (...args: any) => any> = T extends new (...args: infer P) => any ? P : never",
  GlobalDecl.typeAlias "ReturnType"
    "<T extends (...args: any) => any> = T extends (...args: any) => infer R ? R : any",
  GlobalDecl.typeAlias "InstanceType"
    "<T extends new (...args: any) => any> = T extends new (...args: any) => infer R ? R : any",
  ifaceT "Promise" [tp "T"] promiseMembers,
  ifaceT "PromiseLike" [tp "T"] promiseLikeMembers,
  iface "PromiseConstructor" promiseConstructorMembers,
  GlobalDecl.constDecl "Promise" (Ty.ref "PromiseConstructor" []),
  ifaceT "Iterator" [tp "T"] iteratorMembers,
  ifaceT "IteratorResult" [tp "T"] iteratorResultMembers,
  ifaceT "Iterable" [tp "T"] iterableMembers,
  GlobalDecl.interfaceDecl "IterableIterator" [tp "T"] [Ty.ref "Iterator" [tv "T"]]
    iterableIteratorMembers,
  GlobalDecl.typeAlias "Uppercase" "<S extends string> = intrinsic",
  GlobalDecl.typeAlias "Lowercase" "<S extends string> = intrinsic",
  GlobalDecl.typeAlias "Capitalize" "<S extends string> = intrinsic",
  GlobalDecl.typeAlias "Uncapitalize" "<S extends string> = intrinsic",
  iface "IArguments" iArgumentsMembers,
  ifaceT "ArrayLike" [tp "T"] arrayLikeMembers]

/-! ## Queries over a declaration surface -/

def globalDeclName : GlobalDecl → String
  | GlobalDecl.interfaceDecl n _ _ _ => n
  | GlobalDecl.typeAlias n _ => n
  | GlobalDecl.constDecl n _ => n

/-- Does the surface declare a global (interface, type alias, or const) of this name? -/
def declaresGlobal (s : List GlobalDecl) (n : String) : Bool :=
  s.any (fun d => globalDeclName d == n)

/-- The name a member is declared under (`none` for index, call, constructor
and computed-name signatures, which have no plain name). -/
def memberName : Member → Option String
  | Member.prop n _ _ _ => some n
  | Member.method n _ _ _ _ => some n
  | Member.indexSig _ _ _ _ => none
  | Member.callSig _ _ _ => none
  | Member.ctorSig _ _ _ => none
  | Member.computedMethod _ _ _ => none

/-- Member list of the first interface declaration of the given name. -/
def interfaceMembers (s : List GlobalDecl) (n : String) : Option (List Member) :=
  s.findSome? (fun d =>
    match d with
    | GlobalDecl.interfaceDecl m _ _ ms => if m == n then some ms else none
    | _ => none)

def hasMember (s : List GlobalDecl) (ifaceName memName : String) : Bool :=
  match interfaceMembers s ifaceName with
  | some ms => ms.any (fun x => memberName x == some memName)
  | none => false

/-- Declared type of the first property of the given name. -/
def propTyOf (s : List GlobalDecl) (ifaceName memName : String) : Option Ty :=
  match interfaceMembers s ifaceName with
  | some ms => ms.findSome? (fun x =>
      match x with
      | Member.prop n t _ _ => if n == memName then some t else none
      | _ => none)
  | none => none

/-- `readonly` flag of the first property of the given name. -/
def propReadonlyOf (s : List GlobalDecl) (ifaceName memName : String) : Option Bool :=
  match interfaceMembers s ifaceName with
  | some ms => ms.findSome? (fun x =>
      match x with
      | Member.prop n _ r _ => if n == memName then some r else none
      | _ => none)
  | none => none

/-- Declared return type of the first method of the given name. -/
def methodRetOf (s : List GlobalDecl) (ifaceName memName : String) : Option Ty :=
  match interfaceMembers s ifaceName with
  | some ms => ms.findSome? (fun x =>
      match x with
      | Member.method n _ _ r _ => if n == memName then some r else none
      | _ => none)
  | none => none

/-- Parameter list of the first method of the given name. -/
def methodParamsOf (s : List GlobalDecl) (ifaceName memName : String) : Option (List Ty) :=
  match interfaceMembers s ifaceName with
  | some ms => ms.findSome? (fun x =>
      match x with
      | Member.method n _ ps _ _ => if n == memName then some ps else none
      | _ => none)
  | none => none

/-- Type parameter list of the first method of the given name. -/
def methodTypeParamsOf (s : List GlobalDecl) (ifaceName memName : String) :
    Option (List TypeParam) :=
  match interfaceMembers s ifaceName with
  | some ms => ms.findSome? (fun x =>
      match x with
      | Member.method n tps _ _ _ => if n == memName then some tps else none
      | _ => none)
  | none => none

/-- Strip the parameter wrapper, leaving the parameter's declared type. -/
def paramDeclaredTy : Ty → Ty
  | Ty.param _ _ _ t => t
  | t => t

/-- Declared type of the `k`-th parameter of the first method of the given name. -/
def methodParamTyOf (s : List GlobalDecl) (ifaceName memName : String) (k : Nat) : Option Ty :=
  match methodParamsOf s ifaceName memName with
  | some ps => (ps[k]?).map paramDeclaredTy
  | none => none

/-- `readonly` flag of the first index signature of the interface. -/
def indexSigReadonlyOf (s : List GlobalDecl) (ifaceName : String) : Option Bool :=
  match interfaceMembers s ifaceName with
  | some ms => ms.findSome? (fun x =>
      match x with
      | Member.indexSig _ _ _ r => some r
      | _ => none)
  | none => none

/-- Does the interface carry a numeric-key index signature? -/
def hasNumericIndexSigOf (s : List GlobalDecl) (ifaceName : String) : Bool :=
  match interfaceMembers s ifaceName with
  | some ms => ms.any (fun x =>
      match x with
      | Member.indexSig _ Ty.number _ _ => true
      | _ => false)
  | none => false

/-! ## Structural equality of type expressions -/

mutual

/-- Structural (syntactic) equality of type expressions. -/
def Ty.beq : Ty → Ty → Bool
  | Ty.number, Ty.number => true
  | Ty.string, Ty.string => true
  | Ty.boolean, Ty.boolean => true
  | Ty.symbol, Ty.symbol => true
  | Ty.bigint, Ty.bigint => true
  | Ty.undefinedT, Ty.undefinedT => true
  | Ty.voidT, Ty.voidT => true
  | Ty.anyT, Ty.anyT => true
  | Ty.unknownT, Ty.unknownT => true
  | Ty.neverT, Ty.neverT => true
  | Ty.nullT, Ty.nullT => true
  | Ty.objectT, Ty.objectT => true
  | Ty.thisTy, Ty.thisTy => true
  | Ty.intrinsicT, Ty.intrinsicT => true
  | Ty.numLit a, Ty.numLit b => a == b
  | Ty.tvar a, Ty.tvar b => a == b
  | Ty.ref a as, Ty.ref b bs => a == b && Ty.listBeq as bs
  | Ty.arr a, Ty.arr b => Ty.beq a b
  | Ty.roArr a, Ty.roArr b => Ty.beq a b
  | Ty.union a b, Ty.union c d => Ty.beq a c && Ty.beq b d
  | Ty.inter a b, Ty.inter c d => Ty.beq a c && Ty.beq b d
  | Ty.tuple as, Ty.tuple bs => Ty.listBeq as bs
  | Ty.fn as r, Ty.fn bs s => Ty.listBeq as bs && Ty.beq r s
  | Ty.pred a t, Ty.pred b u => a == b && Ty.beq t u
  | Ty.objIndex a b, Ty.objIndex c d => Ty.beq a c && Ty.beq b d
  | Ty.param a o1 r1 t, Ty.param b o2 r2 u => a == b && o1 == o2 && r1 == r2 && Ty.beq t u
  | _, _ => false

def Ty.listBeq : List Ty → List Ty → Bool
  | [], [] => true
  | a :: as, b :: bs => Ty.beq a b && Ty.listBeq as bs
  | _, _ => false

end

/-! ## The mode-merge contract

The package ships only declarations; the operations below are the
authoring/validation-time contract its design documents describe, and are
modelled from those documents. -/

/-- Modelled from the spec: a Mode is "an enumerated selector (`js` |
`host-native`, extensible) recorded in project configuration"; no
implementation ships under src/. -/
inductive Mode where
  | js
  | hostNative
  deriving DecidableEq, Repr

/-- Interface surface as the spec's "interface name → member mapping". -/
abbrev IfaceSet := List (String × List Member)

/-- Modelled from the spec: "a Declaration Set: a named, versioned bundle of
interface/type/const declarations"; a mode-specific set carries its Mode; no
implementation ships under src/. -/
structure DeclarationSet where
  mode : Mode
  surface : IfaceSet

/-- Modelled from the spec: the configuration a consumer supplies — the base
declaration set plus the mode-specific Declaration Sets simultaneously
installed/active; no implementation ships under src/. -/
structure Config where
  base : IfaceSet
  modeSets : List DeclarationSet

inductive ConfigError where
  | ambiguousMode
  deriving DecidableEq, Repr

inductive MergeError where
  | incompatibleMember (ifaceName memName : String)
  deriving DecidableEq, Repr

/-- Modelled from the spec: `selectMode(config) → declarationSet`, "a pure
lookup from the Mode enumerator to exactly one Declaration Set; fails
(configuration error) if zero or more than one mode-specific set is
simultaneously installed/active"; no implementation ships under src/. -/
def selectMode (c : Config) : Except ConfigError DeclarationSet :=
  match c.modeSets with
  | [d] => Except.ok d
  | _ => Except.error ConfigError.ambiguousMode

def findIface (s : IfaceSet) (n : String) : Option (List Member) :=
  (s.find? (fun e => e.1 == n)).map Prod.snd

def findMemberByName (ms : List Member) (n : String) : Option Member :=
  ms.find? (fun m => memberName m == some n)

/-- Two contributions for one member name are compatible when they agree in
kind and, for properties, declare the same type (the sample authoring defect
the design documents give is a property redeclared at a different type). -/
def memberCompatible : Member → Member → Bool
  | Member.prop _ t1 _ _, Member.prop _ t2 _ _ => Ty.beq t1 t2
  | Member.method _ _ _ _ _, Member.method _ _ _ _ _ => true
  | Member.indexSig _ _ _ _, Member.indexSig _ _ _ _ => true
  | _, _ => false

/-- Modelled from the spec: the member-level step of
`mergeInterfaces(base, extension) → effective` — "the effective member mapping
is the union of members by name; if a member name appears in both, the
extension's signature is the one checked against callers", failing with an
incompatible-merge error naming the member when the two signatures conflict;
no implementation ships under src/. -/
def mergeMembers (ifaceName : String) (base ext : List Member) :
    Except MergeError (List Member) :=
  match ext.find? (fun e =>
    match memberName e with
    | some n =>
      match findMemberByName base n with
      | some b => ! memberCompatible b e
      | none => false
    | none => false) with
  | some e => Except.error (MergeError.incompatibleMember ifaceName ((memberName e).getD ""))
  | none => Except.ok
      ((base.filter (fun b =>
        match memberName b with
        | some n => (findMemberByName ext n).isNone
        | none => true)) ++ ext)

/-- Modelled from the spec: `mergeInterfaces(base, extension) → effective` —
"for each interface name present in either set, the effective member mapping
is the union of members by name"; interfaces only in the base pass through,
interfaces only in the extension are appended, shared names are merged
member-wise; no implementation ships under src/. -/
def mergeInterfaces : IfaceSet → IfaceSet → Except MergeError IfaceSet
  | [], ext => Except.ok ext
  | (n, ms) :: rest, ext =>
    match findIface ext n with
    | some ems =>
      match mergeMembers n ms ems with
      | Except.error e => Except.error e
      | Except.ok merged =>
        match mergeInterfaces rest (ext.filter (fun e => e.1 != n)) with
        | Except.error e => Except.error e
        | Except.ok tail => Except.ok ((n, merged) :: tail)
    | none =>
      match mergeInterfaces rest ext with
      | Except.error e => Except.error e
      | Except.ok tail => Except.ok ((n, ms) :: tail)

inductive PublishError where
  | config (e : ConfigError)
  | merge (e : MergeError)
  deriving DecidableEq, Repr

/-- Modelled from the spec: the surface-production pipeline
`Unconfigured → ModeSelected → Merged → Published` — select the single active
mode-specific Declaration Set, then merge it with the base set into the
Global Type Surface; no implementation ships under src/. -/
def publishSurface (c : Config) : Except PublishError IfaceSet :=
  match selectMode c with
  | Except.error e => Except.error (PublishError.config e)
  | Except.ok d =>
    match mergeInterfaces c.base d.surface with
    | Except.error e => Except.error (PublishError.merge e)
    | Except.ok s => Except.ok s

/-- A coverage requirement: a global of a given name must be declared, or an
interface must carry a member of a given name. -/
inductive Requirement where
  | globalName (n : String)
  | ifaceMember (ifaceName memName : String)
  deriving DecidableEq, BEq, Repr

/-- Modelled from the spec: `validateCoverage(mode, requiredSurface) →
ok | list-of-missing` — "every member the Mode's documented capability list
promises must be present in the merged result"; returns the requirements the
surface fails to satisfy (`[]` is ok); no implementation ships under src/. -/
def validateCoverage (required : List Requirement) (s : List GlobalDecl) : List Requirement :=
  required.filter (fun r =>
    match r with
    | Requirement.globalName n => ! declaresGlobal s n
    | Requirement.ifaceMember i m => ! hasMember s i m)

/-! ## Claim-specific data -/

/-- The `Array<T>` member list the js mode's documented capability list promises. -/
def arrayRequiredNames : List String :=
  ["length", "push", "pop", "shift", "unshift", "slice", "splice", "indexOf", "lastIndexOf",
   "every", "some", "forEach", "map", "filter", "reduce", "find", "findIndex", "includes",
   "sort", "reverse", "concat", "join", "at", "flat", "flatMap"]

def arrayRequirements : List Requirement :=
  arrayRequiredNames.map (Requirement.ifaceMember "Array")

/-- The named members of the shipped `Array<T>` interface (its index signature
carries no name). -/
def sampleArrayMembers : List Member :=
  arrayMembers.filter (fun x => (memberName x).isSome)

/-- A surface consisting of a single `Array<T>` interface with the given members. -/
def sampleArraySurface (ms : List Member) : List GlobalDecl :=
  [GlobalDecl.interfaceDecl "Array" [tp "T"] [] ms]

/-- The js mode's documented capability list (src/unnamed/part_000, "What This
Provides"): the Array/String/Number/Object/Function/RegExp/Math/JSON/console/Error
surface plus the `Map<K,V>` and `Set<T>` collections and the `setTimeout` and
`setInterval` timers. -/
def jsCapabilityList : List Requirement :=
  (["Array", "String", "Number", "Object", "Function", "RegExp", "Math", "JSON", "console",
    "Error", "Map", "Set", "setTimeout", "setInterval"]).map Requirement.globalName

/-- The capability exclusion list of host, browser and Node globals
(src/README.md, "What's NOT Included"). -/
def excludedNames : List String :=
  ["fetch", "localStorage", "XMLHttpRequest", "Document", "HTMLElement", "window",
   "Buffer", "process", "require"]

/-- Which integer values a type expression admits: the `number` primitive
carries every signed numeric value, a numeric literal type exactly its
literal, and a union whatever either side admits. -/
def tyAdmitsInt : Ty → Int → Bool
  | Ty.number, _ => true
  | Ty.numLit m, k => m == k
  | Ty.union a b, k => tyAdmitsInt a k || tyAdmitsInt b k
  | _, _ => false

def isConfigError (x : Except ConfigError DeclarationSet) : Bool :=
  match x with
  | Except.error _ => true
  | Except.ok _ => false

/-- The sample base set `Base = \x7bArray: \x7blength\x7d\x7d`. -/
def arraySampleBase : IfaceSet := [("Array", [Member.prop "length" Ty.number false false])]

/-- The sample extension member `map`, with the shipped `Array.map` signature. -/
def arraySampleMapMember : Member :=
  methT "map" [tp "U"]
    [pp "callbackfn"
      (Ty.fn [pp "value" (tv "T"), pp "index" num, pp "array" (Ty.arr (tv "T"))] (tv "U"))]
    (Ty.arr (tv "U"))

/-- The sample extension set `Extension = \x7bArray: \x7bmap\x7d\x7d`. -/
def arraySampleExtMap : IfaceSet := [("Array", [arraySampleMapMember])]

/-- The conflicting sample extension `Extension = \x7bArray: \x7blength: string\x7d\x7d`. -/
def arraySampleExtConflict : IfaceSet :=
  [("Array", [Member.prop "length" Ty.string false false])]

/-- A concrete configuration: the sample base plus a single active js-mode set. -/
def cSample : Config := Config.mk arraySampleBase [DeclarationSet.mk Mode.js arraySampleExtMap]

/-! ## Claims -/

/-- C1 (counterexample): the claim that every length/index position is typed
with a distinguished Semantic Index Type rather than the general numeric type
fails at `Array.length`, whose declared type in the shipped surface is the
general numeric primitive `number`; the surface also declares no distinguished
`int` index type at all. -/
theorem array_length_typed_general_number :
    propTyOf shippedSurface "Array" "length" = some Ty.number ∧
    declaresGlobal shippedSurface "int" = false :=
  ⟨rfl, rfl⟩

/-- C1 (amended): every enumerated length/index/count position of the shipped
surface — `Array.length`, the returns of `Array.indexOf`/`lastIndexOf`/
`findIndex`, the `fromIndex` parameters, `at`'s and `charCodeAt`'s parameters,
`String.length`, `String.search`'s return, `repeat`'s count — is uniformly the
general numeric type `number`; `flat`'s depth is its type parameter `D`,
bounded by `number` with default `1`. The surface is consistent, but via
`number`: it declares no distinguished Semantic Index Type. -/
theorem index_positions_uniformly_number :
    propTyOf shippedSurface "Array" "length" = some Ty.number ∧
    methodRetOf shippedSurface "Array" "indexOf" = some Ty.number ∧
    methodRetOf shippedSurface "Array" "lastIndexOf" = some Ty.number ∧
    methodRetOf shippedSurface "Array" "findIndex" = some Ty.number ∧
    methodParamTyOf shippedSurface "Array" "indexOf" 1 = some Ty.number ∧
    methodParamTyOf shippedSurface "Array" "lastIndexOf" 1 = some Ty.number ∧
    methodParamTyOf shippedSurface "Array" "includes" 1 = some Ty.number ∧
    methodParamTyOf shippedSurface "Array" "at" 0 = some Ty.number ∧
    propTyOf shippedSurface "String" "length" = some Ty.number ∧
    methodRetOf shippedSurface "String" "search" = some Ty.number ∧
    methodParamTyOf shippedSurface "String" "charCodeAt" 0 = some Ty.number ∧
    methodParamTyOf shippedSurface "String" "repeat" 0 = some Ty.number ∧
    methodParamTyOf shippedSurface "String" "indexOf" 1 = some Ty.number ∧
    methodParamTyOf shippedSurface "String" "lastIndexOf" 1 = some Ty.number ∧
    methodParamTyOf shippedSurface "Array" "flat" 0 = some (Ty.tvar "D") ∧
    methodTypeParamsOf shippedSurface "Array" "flat" =
      some [TypeParam.mk "D" (some Ty.number) (some (Ty.numLit 1))] ∧
    declaresGlobal shippedSurface "int" = false :=
  ⟨rfl, rfl, rfl, rfl, rfl, rfl, rfl, rfl, rfl, rfl, rfl, rfl, rfl, rfl, rfl, rfl, rfl⟩

/-- C2: the shipped `Array<T>` interface declares all 25 required members; the
Array sample declared with exactly the required member list passes
`validateCoverage`, and removing any single member makes it report exactly
that member as missing. -/
theorem array_coverage_complete :
    (sampleArrayMembers.filterMap memberName) = arrayRequiredNames ∧
    (arrayRequiredNames.all (fun m => hasMember shippedSurface "Array" m)) = true ∧
    validateCoverage arrayRequirements (sampleArraySurface sampleArrayMembers) = [] ∧
    (arrayRequiredNames.all (fun m =>
      validateCoverage arrayRequirements
        (sampleArraySurface (sampleArrayMembers.filter (fun x => memberName x != some m)))
        == [Requirement.ifaceMember "Array" m])) = true :=
  ⟨rfl, rfl, rfl, rfl⟩

/-- C3: the js mode's documented capability list promises `Map`, `Set`,
`setTimeout` and `setInterval`, but the shipped declaration set declares none
of them, so `validateCoverage` reports exactly those four as missing rather
than returning ok. -/
theorem js_coverage_missing_collections_and_timers :
    validateCoverage jsCapabilityList shippedSurface =
      [Requirement.globalName "Map", Requirement.globalName "Set",
       Requirement.globalName "setTimeout", Requirement.globalName "setInterval"] :=
  rfl

/-- C4: no name on the capability-exclusion list of host, browser and Node
globals is declared (as interface, type alias, or const) by the shipped
surface. -/
theorem excluded_names_absent :
    (excludedNames.all (fun n => ! declaresGlobal shippedSurface n)) = true :=
  rfl

/-- C5: `selectMode` yields the ambiguous-mode configuration error exactly
when the number of simultaneously active mode-specific Declaration Sets is
not one; in particular any configuration activating the sets of two different
modes yields the error, never a merged surface. -/
theorem selectMode_ambiguous_iff (c : Config) (d₁ d₂ : DeclarationSet)
    (rest : List DeclarationSet) (base : IfaceSet) (_h : d₁.mode ≠ d₂.mode) :
    (isConfigError (selectMode c) = true ↔ c.modeSets.length ≠ 1) ∧
    selectMode (Config.mk base (d₁ :: d₂ :: rest)) = Except.error ConfigError.ambiguousMode := by
  constructor
  · obtain ⟨b, sets⟩ := c
    match sets with
    | [] => simp [selectMode, isConfigError]
    | [d] => simp [selectMode, isConfigError]
    | a :: b' :: rest' =>
      simp only [selectMode, isConfigError, Config.modeSets, List.length_cons]
      constructor
      · intro _
        omega
      · intro _
        trivial
  · rfl

/-- C5 witness: the empty configuration (zero active sets) errors, and the
concrete configuration activating a js-mode and a host-native-mode set
simultaneously yields the ambiguous-mode error. -/
theorem selectMode_ambiguous_iff_witness :
    (isConfigError (selectMode (Config.mk [] [])) = true ↔
      (Config.mk [] [] : Config).modeSets.length ≠ 1) ∧
    selectMode (Config.mk []
        [DeclarationSet.mk Mode.js [], DeclarationSet.mk Mode.hostNative []]) =
      Except.error ConfigError.ambiguousMode :=
  selectMode_ambiguous_iff (Config.mk [] []) (DeclarationSet.mk Mode.js [])
    (DeclarationSet.mk Mode.hostNative []) [] [] (by decide)

/-- C6: merging `Base = \x7bArray: \x7blength\x7d\x7d` with
`Extension = \x7bArray: \x7bmap\x7d\x7d` yields the member union
`Array = \x7blength, map\x7d`, while merging the same base with the
conflicting `Extension = \x7bArray: \x7blength: string\x7d\x7d` yields the
incompatible-merge error naming the member, not a merged surface. -/
theorem mergeInterfaces_union_and_conflict :
    mergeInterfaces arraySampleBase arraySampleExtMap =
      Except.ok [("Array",
        [Member.prop "length" Ty.number false false, arraySampleMapMember])] ∧
    mergeInterfaces arraySampleBase arraySampleExtConflict =
      Except.error (MergeError.incompatibleMember "Array" "length") :=
  ⟨rfl, rfl⟩

/-- C7: surface production is deterministic — two runs of `publishSurface` on
equal configurations (same mode selection, same declaration sets) produce
equal surfaces, agreeing on the declaration looked up for every name. -/
theorem publishSurface_deterministic (c₁ c₂ : Config) (h : c₁ = c₂) :
    publishSurface c₁ = publishSurface c₂ ∧
    ∀ n, (publishSurface c₁).toOption.bind (fun s => findIface s n) =
      (publishSurface c₂).toOption.bind (fun s => findIface s n) := by
  subst h
  exact ⟨rfl, fun _ => rfl⟩

/-- C7 witness: two runs on the concrete sample configuration agree, also on
the `Array` lookup. -/
theorem publishSurface_deterministic_witness :
    publishSurface cSample = publishSurface cSample ∧
    (publishSurface cSample).toOption.bind (fun s => findIface s "Array") =
      (publishSurface cSample).toOption.bind (fun s => findIface s "Array") :=
  ⟨(publishSurface_deterministic cSample cSample rfl).1,
   (publishSurface_deterministic cSample cSample rfl).2 "Array"⟩

/-- C8: the type declared as the return type of `Array.indexOf`,
`Array.lastIndexOf`, `Array.findIndex` and `String.search` is the `number`
primitive, whose value semantics admits the sentinel `-1` — it carries no
non-negative or natural-number constraint. -/
theorem sentinel_minus_one_admitted :
    methodRetOf shippedSurface "Array" "indexOf" = some Ty.number ∧
    methodRetOf shippedSurface "Array" "lastIndexOf" = some Ty.number ∧
    methodRetOf shippedSurface "Array" "findIndex" = some Ty.number ∧
    methodRetOf shippedSurface "String" "search" = some Ty.number ∧
    tyAdmitsInt Ty.number (-1) = true :=
  ⟨rfl, rfl, rfl, rfl, rfl⟩

/-- C9: every named member of `ReadonlyArray<T>` is also declared on
`Array<T>` (and its numeric index signature has a counterpart there), its
`length` and index signature are declared readonly, and none of the mutating
members `push`/`pop`/`shift`/`unshift`/`splice`/`sort`/`reverse` appears on
`ReadonlyArray`. -/
theorem readonlyArray_readonly_subset :
    (readonlyArrayMembers.all (fun m =>
      match memberName m with
      | some n => hasMember shippedSurface "Array" n
      | none => true)) = true ∧
    hasNumericIndexSigOf shippedSurface "ReadonlyArray" = true ∧
    hasNumericIndexSigOf shippedSurface "Array" = true ∧
    propReadonlyOf shippedSurface "ReadonlyArray" "length" = some true ∧
    indexSigReadonlyOf shippedSurface "ReadonlyArray" = some true ∧
    (["push", "pop", "shift", "unshift", "splice", "sort", "reverse"].all
      (fun n => ! hasMember shippedSurface "ReadonlyArray" n)) = true :=
  ⟨rfl, rfl, rfl, rfl, rfl, rfl⟩

/-- C10: every fallible `Array<T>` member — `pop`, `shift`, `find`, `at` —
declares the return type `T | undefined`, so the absent-element case is
representable in the declared type. -/
theorem fallible_members_return_undefined_union :
    methodRetOf shippedSurface "Array" "pop" = some (Ty.union (Ty.tvar "T") Ty.undefinedT) ∧
    methodRetOf shippedSurface "Array" "shift" = some (Ty.union (Ty.tvar "T") Ty.undefinedT) ∧
    methodRetOf shippedSurface "Array" "find" = some (Ty.union (Ty.tvar "T") Ty.undefinedT) ∧
    methodRetOf shippedSurface "Array" "at" = some (Ty.union (Ty.tvar "T") Ty.undefinedT) :=
  ⟨rfl, rfl, rfl, rfl⟩
